import Mathlib

/-!
Shallow embedding of `src/main.py` (the Yandex Music artist sweep script)
and verification of its specification claims.

The script fetches `{BASE_URL}/{id}/brief-info` for consecutive artist ids,
in batches of `MAX_CONCURRENT`, writing each collected record to
`artists.jsonl`, and stops once `consecutive_failures` reaches
`CONSECUTIVE_FAIL_LIMIT`.
-/

namespace YaMusic

/-- Constants of `src/main.py`, lines 7-10. -/
def MAX_CONCURRENT : Nat := 100

def CONSECUTIVE_FAIL_LIMIT : Nat := 100

def START_ID : Nat := 4463796

def MAX_RETRIES : Nat := 3

/-- A JSON value, modelling the decoded Python objects handled by the
script (`resp.json()` results and the dicts passed to `json.dumps`). -/
inductive Json where
  | null : Json
  | bool (b : Bool) : Json
  | num (n : Int) : Json
  | str (s : String) : Json
  | arr (elems : List Json) : Json
  | obj (fields : List (String × Json)) : Json
deriving Repr

/-- Outcome of `await resp.json()` at line 24: either a decoded payload or
a raised decoding exception. -/
inductive BodyRes where
  | ok (payload : Json) : BodyRes
  | raises : BodyRes
deriving Repr

/-- One HTTP response as the script observes it: `resp.status`, the
optional `Retry-After` header, and the result of decoding the body. -/
structure HttpResp where
  status : Nat
  retryAfter : Option String
  body : BodyRes
deriving Repr

/-- What one `session.get` attempt at line 22 encounters: a response, or a
transport-level exception (timeout, connection reset, protocol error). -/
inductive AttemptEvent where
  | got (resp : HttpResp) : AttemptEvent
  | transportFault : AttemptEvent
deriving Repr

/-- The script of responses one id's fetch would see, indexed by attempt
number.  A script shorter than the attempts taken reads as transport
faults (irrelevant in practice: the loop never issues a second request,
see `fetch_loop`). -/
def scriptAt (script : List AttemptEvent) (att : Nat) : AttemptEvent :=
  script.getD att AttemptEvent.transportFault

/-- The dict returned at line 25: `{"id": artist_id, "data": data}`. -/
structure FetchRecord where
  id : Nat
  data : Json
deriving Repr

/-- The Python exceptions that can arise inside the `try` block of
`fetch_artist` (lines 19-35). -/
inductive PyExc where
  /-- line 28 references `attempt`, a name never bound (the loop variable
  is `att`). -/
  | nameError : PyExc
  /-- `int()` at line 27 on a non-integer `Retry-After` string. -/
  | valueError : PyExc
  /-- `await resp.json()` at line 24 on an undecodable body. -/
  | jsonDecodeError : PyExc
  /-- `session.get` at line 22 failing at transport level. -/
  | transportError : PyExc
deriving Repr, DecidableEq

/-- How the `try` block of `fetch_artist` ended. -/
inductive LoopOut where
  /-- an explicit or implicit `return` with this value. -/
  | ret (value : Option FetchRecord) : LoopOut
  /-- an exception escaped the `for` loop, to be caught at line 36. -/
  | exc (e : PyExc) : LoopOut
deriving Repr

/-- Which program point ended the `try` block (instrumentation: each
constructor is one exit point of the source). -/
inductive ExitSite where
  /-- `return {"id": artist_id, "data": data}`, line 25. -/
  | success : ExitSite
  /-- `return None` in the 404 branch, line 32. -/
  | absent : ExitSite
  /-- `return None` in the unexpected-status branch, line 35. -/
  | unexpectedStatus : ExitSite
  /-- the `for` loop ran out of iterations (implicit `return None`). -/
  | exhausted : ExitSite
  /-- an exception was raised inside the block. -/
  | raised : ExitSite
deriving Repr, DecidableEq

/-- Instrumented result of running the `try` block of `fetch_artist`:
its outcome, the number of `session.get` calls issued, and the waits
actually slept at line 29. -/
structure BodyRun where
  out : LoopOut
  attempts : Nat
  sleeps : List Int
  exitAt : ExitSite
deriving Repr

/-- Python `int(s)` on a string, as used on the `Retry-After` header at
line 27: surrounding whitespace is stripped, an optional sign precedes a
nonempty digit string; anything else raises `ValueError`.  (Digit-group
underscores accepted by CPython are not modelled; no claim uses them.) -/
def pyInt (s : String) : Option Int :=
  let t :=
    ((s.data.dropWhile Char.isWhitespace).reverse.dropWhile
      Char.isWhitespace).reverse
  let core : Option (Bool × List Char) :=
    match t with
    | [] => none
    | '-' :: rest => some (true, rest)
    | '+' :: rest => some (false, rest)
    | cs => some (false, cs)
  match core with
  | none => none
  | some (neg, digits) =>
    if digits ≠ [] ∧ digits.all Char.isDigit then
      let mag : Nat := digits.foldl (fun acc c => 10 * acc + (c.toNat - 48)) 0
      some (if neg then -(mag : Int) else (mag : Int))
    else
      none

/-- `wait = int(resp.headers.get("Retry-After", retry_delay))`, line 27:
when the header is absent the dict lookup already yields the integer
`retry_delay`, so `int` is the identity; when present, `int` parses the
header string and raises `ValueError` if it cannot. -/
def computeWait (retryAfter : Option String) (retry_delay : Int) :
    Except PyExc Int :=
  match retryAfter with
  | none => Except.ok retry_delay
  | some s =>
    match pyInt s with
    | some w => Except.ok w
    | none => Except.error PyExc.valueError

/-- The `for att in range(MAX_RETRIES)` loop of `fetch_artist`
(lines 20-35), recursing on remaining iterations.  In the 429 branch the
log statement at line 28 interpolates `attempt + 1`, but `attempt` is
never bound anywhere in the program (the loop variable is `att`), so the
statement raises `NameError` before the `await asyncio.sleep(wait)` at
line 29 and the `retry_delay *= 2` at line 30 can run; those two lines
are therefore unreachable and the loop never starts a second
iteration. -/
def fetch_loop (artist_id : Nat) (script : List AttemptEvent) :
    Nat → Nat → Int → Nat → List Int → BodyRun
  | 0, _att, _retry_delay, attempts, sleeps =>
    -- the for loop exhausted its range: Python falls off the function
    -- body, implicitly returning None
    ⟨LoopOut.ret none, attempts, sleeps.reverse, ExitSite.exhausted⟩
  | _remaining + 1, att, retry_delay, attempts, sleeps =>
    match scriptAt script att with
    | AttemptEvent.transportFault =>
      ⟨LoopOut.exc PyExc.transportError, attempts + 1, sleeps.reverse,
        ExitSite.raised⟩
    | AttemptEvent.got resp =>
      if resp.status = 200 then
        match resp.body with
        | BodyRes.ok payload =>
          ⟨LoopOut.ret (some ⟨artist_id, payload⟩), attempts + 1,
            sleeps.reverse, ExitSite.success⟩
        | BodyRes.raises =>
          ⟨LoopOut.exc PyExc.jsonDecodeError, attempts + 1, sleeps.reverse,
            ExitSite.raised⟩
      else if resp.status = 429 then
        match computeWait resp.retryAfter retry_delay with
        | Except.error e =>
          ⟨LoopOut.exc e, attempts + 1, sleeps.reverse, ExitSite.raised⟩
        | Except.ok _wait =>
          -- line 28: f"... (attempt {attempt + 1})" -- `attempt` is an
          -- unbound name, so NameError is raised here; lines 29-30
          -- (sleep and delay doubling) never execute
          ⟨LoopOut.exc PyExc.nameError, attempts + 1, sleeps.reverse,
            ExitSite.raised⟩
      else if resp.status = 404 then
        ⟨LoopOut.ret none, attempts + 1, sleeps.reverse, ExitSite.absent⟩
      else
        ⟨LoopOut.ret none, attempts + 1, sleeps.reverse,
          ExitSite.unexpectedStatus⟩

/-- The whole `try` block of `fetch_artist`: `retry_delay = 5` then the
retry loop (lines 18-35). -/
def fetchBody (artist_id : Nat) (script : List AttemptEvent) : BodyRun :=
  fetch_loop artist_id script MAX_RETRIES 0 5 0 []

/-- `fetch_artist` (lines 16-38): the `try` block wrapped in
`except Exception: return None` (lines 36-38), so any raised exception
resolves to `None`. -/
def fetch_artist (artist_id : Nat) (script : List AttemptEvent) :
    Option FetchRecord :=
  match (fetchBody artist_id script).out with
  | LoopOut.ret v => v
  | LoopOut.exc _ => none

/-! ## The sweep controller (`main`, lines 41-73) -/

/-- The dict `{"id": artist_id, "data": data}` built at line 25, as the
JSON value it denotes. -/
def recordJson (r : FetchRecord) : Json :=
  Json.obj [("id", Json.num (r.id : Int)), ("data", r.data)]

/-- The line appended to `artists.jsonl` for one collected id, line 61:
`json.dumps({"id": aid, "data": result})`, where `result` is the whole
dict returned by `fetch_artist` (itself already of the form
`{"id": aid, "data": body}`). -/
def emitLine (aid : Nat) (r : FetchRecord) : Json :=
  Json.obj [("id", Json.num (aid : Int)), ("data", recordJson r)]

/-- The state the `main` loop threads between batches: the id cursor, the
failure counter, the collected counter, the file contents (as the list of
appended JSON lines), whether control has left the `while` loop, and — as
instrumentation — the batches dispatched so far, in order. -/
structure SweepState where
  artist_id : Nat
  consecutive_failures : Nat
  total_collected : Nat
  file : List Json
  stopped : Bool
  dispatched : List (List Nat)
deriving Repr

/-- `main`'s initial state (lines 46-48): cursor at `START_ID`, counters
zero, file untouched, loop running. -/
def initState : SweepState :=
  ⟨START_ID, 0, 0, [], false, []⟩

/-- `list(range(artist_id, artist_id + MAX_CONCURRENT))`, line 52. -/
def batchIds (artist_id : Nat) : List Nat :=
  (List.range MAX_CONCURRENT).map (fun i => artist_id + i)

/-- An environment assigns to each artist id the script of responses its
fetch would observe. -/
def Env : Type := Nat → List AttemptEvent

/-- The per-result loop of `main` (lines 58-66): for each
`(aid, result)` pair in order, a truthy (non-`None`) result appends its
line to the file, increments `total_collected`, sets `any_success`, and
resets `consecutive_failures` to 0.  Returns the updated file, the two
counters, and the `any_success` flag. -/
def sinkLoop :
    List (Nat × Option FetchRecord) → List Json → Nat → Nat → Bool →
      List Json × Nat × Nat × Bool
  | [], f, tc, cf, anyS => (f, tc, cf, anyS)
  | (aid, res) :: rest, f, tc, cf, anyS =>
    match res with
    | some r => sinkLoop rest (f ++ [emitLine aid r]) (tc + 1) 0 true
    | none => sinkLoop rest f tc cf anyS

/-- The fetch results of one batch, index-aligned with its ids
(lines 55-56: one `fetch_artist` task per id, gathered in order). -/
def batchResults (env : Env) (ids : List Nat) :
    List (Nat × Option FetchRecord) :=
  ids.map (fun aid => (aid, fetch_artist aid (env aid)))

/-- One iteration of the `while` loop body (lines 52-71): build the batch
ids, advance the cursor by `MAX_CONCURRENT`, gather the fetches, run the
per-result sink loop, and finally add `MAX_CONCURRENT` to
`consecutive_failures` when no result was a success. -/
def batchStep (env : Env) (s : SweepState) : SweepState :=
  let ids := batchIds s.artist_id
  let looped :=
    sinkLoop (batchResults env ids) s.file s.total_collected
      s.consecutive_failures false
  { artist_id := s.artist_id + MAX_CONCURRENT
    consecutive_failures :=
      -- line 68: `if not any_success: consecutive_failures += MAX_CONCURRENT`
      if looped.2.2.2 then looped.2.2.1 else looped.2.2.1 + MAX_CONCURRENT
    total_collected := looped.2.1
    file := looped.1
    stopped := s.stopped
    dispatched := s.dispatched ++ [ids] }

/-- One observation of the `while consecutive_failures <
CONSECUTIVE_FAIL_LIMIT` condition (line 51): if control has already left
the loop nothing more happens; otherwise the condition either admits one
more batch iteration or terminates the loop (the spec's `Stopped`
state). -/
def mainStep (env : Env) (s : SweepState) : SweepState :=
  if s.stopped then s
  else if s.consecutive_failures < CONSECUTIVE_FAIL_LIMIT then batchStep env s
  else { s with stopped := true }

/-- `n` observations of the loop condition from a given state. -/
def mainRun (env : Env) : Nat → SweepState → SweepState
  | 0, s => s
  | n + 1, s => mainRun env n (mainStep env s)

/-! ## Concrete response fixtures used in witnesses and scenarios -/

/-- A 200 response with a decodable body. -/
def ev200 (p : Json) : AttemptEvent :=
  AttemptEvent.got ⟨200, none, BodyRes.ok p⟩

/-- A 404 response. -/
def ev404 : AttemptEvent :=
  AttemptEvent.got ⟨404, none, BodyRes.ok Json.null⟩

/-- A 429 response with the given optional `Retry-After` header. -/
def ev429 (h : Option String) : AttemptEvent :=
  AttemptEvent.got ⟨429, h, BodyRes.ok Json.null⟩

/-- A 500 response (any unexpected status). -/
def ev500 : AttemptEvent :=
  AttemptEvent.got ⟨500, none, BodyRes.ok Json.null⟩

/-- An environment in which every id is absent (every fetch sees 404). -/
def envAll404 : Env := fun _ => [ev404]

/-- An environment in which every id succeeds with a `null` payload. -/
def envAllOk : Env := fun _ => [ev200 Json.null]

/-! ## Behaviour of the per-result sink loop -/

/-- The sink loop appends to the file exactly one line per truthy result,
in input order. -/
lemma sinkLoop_file (l : List (Nat × Option FetchRecord)) (f : List Json)
    (tc cf : Nat) (anyS : Bool) :
    (sinkLoop l f tc cf anyS).1 =
      f ++ l.filterMap (fun p => Option.map (emitLine p.1) p.2) := by
  induction l generalizing f tc cf anyS with
  | nil => simp [sinkLoop]
  | cons hd tl ih =>
    obtain ⟨aid, res⟩ := hd
    cases res with
    | some r => simp [sinkLoop, ih]
    | none => simp [sinkLoop, ih]

/-- The sink loop's effect on `total_collected`, `consecutive_failures`
and `any_success`: the collected counter grows by the number of truthy
results, the failure counter becomes 0 as soon as any result is truthy
and is otherwise untouched, and the flag records whether any result was
truthy. -/
lemma sinkLoop_counters (l : List (Nat × Option FetchRecord))
    (f : List Json) (tc cf : Nat) (anyS : Bool) :
    (sinkLoop l f tc cf anyS).2.1 = tc + l.countP (fun p => p.2.isSome) ∧
    (sinkLoop l f tc cf anyS).2.2.1 =
      (if l.any (fun p => p.2.isSome) then 0 else cf) ∧
    (sinkLoop l f tc cf anyS).2.2.2 =
      (anyS || l.any (fun p => p.2.isSome)) := by
  induction l generalizing f tc cf anyS with
  | nil => simp [sinkLoop]
  | cons hd tl ih =>
    obtain ⟨aid, res⟩ := hd
    cases res with
    | some r =>
      obtain ⟨ih1, ih2, ih3⟩ :=
        ih (f ++ [emitLine aid r]) (tc + 1) 0 true
      refine ⟨?_, ?_, ?_⟩
      · simp [sinkLoop, ih1, List.countP_cons]
        omega
      · simp [sinkLoop, ih2]
      · simp [sinkLoop, ih3]
    | none =>
      obtain ⟨ih1, ih2, ih3⟩ := ih f tc cf anyS
      refine ⟨?_, ?_, ?_⟩
      · simp [sinkLoop, ih1, List.countP_cons]
      · simp only [sinkLoop, ih2, List.any_cons, Option.isSome_none,
          Bool.false_or]
      · simp [sinkLoop, ih3]

/-! ## Behaviour of one batch iteration -/

/-- Abbreviation: the results of the batch dispatched from state `s`. -/
def stateBatch (env : Env) (s : SweepState) :
    List (Nat × Option FetchRecord) :=
  batchResults env (batchIds s.artist_id)

/-- The failure counter after one batch iteration: 0 when any result was
truthy, otherwise its prior value plus `MAX_CONCURRENT`. -/
lemma batchStep_cf (env : Env) (s : SweepState) :
    (batchStep env s).consecutive_failures =
      if (stateBatch env s).any (fun p => p.2.isSome) then 0
      else s.consecutive_failures + MAX_CONCURRENT := by
  obtain ⟨h1, h2, h3⟩ :=
    sinkLoop_counters (batchResults env (batchIds s.artist_id)) s.file
      s.total_collected s.consecutive_failures false
  simp only [batchStep, stateBatch, h2, h3, Bool.false_or]
  by_cases h :
      (batchResults env (batchIds s.artist_id)).any (fun p => p.2.isSome) <;>
    simp [h]

/-- The collected counter after one batch iteration grows by the number
of truthy results. -/
lemma batchStep_tc (env : Env) (s : SweepState) :
    (batchStep env s).total_collected =
      s.total_collected +
        (stateBatch env s).countP (fun p => p.2.isSome) := by
  exact (sinkLoop_counters (stateBatch env s) s.file s.total_collected
    s.consecutive_failures false).1

/-- One batch iteration appends to the file exactly one emitted line per
truthy result, in result order. -/
lemma batchStep_file (env : Env) (s : SweepState) :
    (batchStep env s).file =
      s.file ++
        (stateBatch env s).filterMap
          (fun p => Option.map (emitLine p.1) p.2) := by
  exact sinkLoop_file (stateBatch env s) s.file s.total_collected
    s.consecutive_failures false

/-- One batch iteration advances the cursor by `MAX_CONCURRENT`, records
the dispatched batch, and does not touch the loop-exit flag. -/
lemma batchStep_cursor (env : Env) (s : SweepState) :
    (batchStep env s).artist_id = s.artist_id + MAX_CONCURRENT ∧
    (batchStep env s).dispatched =
      s.dispatched ++ [batchIds s.artist_id] ∧
    (batchStep env s).stopped = s.stopped :=
  ⟨rfl, rfl, rfl⟩

/-! ## Claim theorems -/

/-- C2.  For every batch processed by the sweep loop: if the batch
contains at least one success (truthy fetch result), `consecutive_failures`
is exactly 0 afterwards; if it contains zero successes,
`consecutive_failures` afterwards equals its prior value plus the batch
size. -/
theorem C2_consecutive_failures_update (env : Env) (s : SweepState) :
    ((stateBatch env s).any (fun p => p.2.isSome) = true →
      (batchStep env s).consecutive_failures = 0) ∧
    ((stateBatch env s).any (fun p => p.2.isSome) = false →
      (batchStep env s).consecutive_failures =
        s.consecutive_failures + (batchIds s.artist_id).length) := by
  have hlen : (batchIds s.artist_id).length = MAX_CONCURRENT := by
    simp [batchIds]
  constructor
  · intro h
    rw [batchStep_cf, h]
    simp
  · intro h
    rw [batchStep_cf, h, hlen]
    simp

/-- C2 witness: in an all-404 environment the counter grows by the batch
size; in an all-200 environment it resets to 0. -/
theorem C2_witness :
    (batchStep envAll404 initState).consecutive_failures =
      initState.consecutive_failures +
        (batchIds initState.artist_id).length ∧
    (batchStep envAllOk initState).consecutive_failures = 0 :=
  ⟨(C2_consecutive_failures_update envAll404 initState).2 (by rfl),
   (C2_consecutive_failures_update envAllOk initState).1 (by rfl)⟩

/-- C3.  The sweep leaves the `while` loop (transitions to `Stopped`) iff
`consecutive_failures >= CONSECUTIVE_FAIL_LIMIT` at the loop-condition
check; it never stops earlier, the stopping transition dispatches no
batch, and the stopped state is terminal: no further step changes
anything. -/
theorem C3_stop_iff_limit (env : Env) (s : SweepState) :
    (s.stopped = true → mainStep env s = s) ∧
    (s.stopped = false →
      ((mainStep env s).stopped = true ↔
        CONSECUTIVE_FAIL_LIMIT ≤ s.consecutive_failures)) ∧
    (CONSECUTIVE_FAIL_LIMIT ≤ s.consecutive_failures →
      (mainStep env s).dispatched = s.dispatched) := by
  refine ⟨?_, ?_, ?_⟩
  · intro h
    simp [mainStep, h]
  · intro h
    by_cases hcf : s.consecutive_failures < CONSECUTIVE_FAIL_LIMIT
    · have hms : mainStep env s = batchStep env s := by
        simp [mainStep, h, hcf]
      rw [hms, (batchStep_cursor env s).2.2, h]
      simp
      omega
    · have hms : mainStep env s = { s with stopped := true } := by
        simp [mainStep, h, hcf]
      rw [hms]
      simp
      omega
  · intro hcf
    have hncf : ¬ s.consecutive_failures < CONSECUTIVE_FAIL_LIMIT := by omega
    by_cases h : s.stopped <;> simp [mainStep, h, hncf]

/-- C3 witness: a stopped state is left unchanged, and a running state at
the failure limit stops. -/
theorem C3_witness :
    mainStep envAll404 ⟨0, 0, 0, [], true, []⟩ = ⟨0, 0, 0, [], true, []⟩ ∧
    ((mainStep envAll404 ⟨0, 100, 0, [], false, []⟩).stopped = true ↔
      CONSECUTIVE_FAIL_LIMIT ≤ 100) ∧
    (mainStep envAll404 ⟨0, 100, 0, [], false, []⟩).dispatched = [] :=
  ⟨(C3_stop_iff_limit envAll404 ⟨0, 0, 0, [], true, []⟩).1 rfl,
   (C3_stop_iff_limit envAll404 ⟨0, 100, 0, [], false, []⟩).2.1 rfl,
   (C3_stop_iff_limit envAll404 ⟨0, 100, 0, [], false, []⟩).2.2
     (by decide)⟩

/-- The cursor/dispatch invariant of the sweep: after some number `k` of
batches, the cursor sits at `START_ID + MAX_CONCURRENT * k` and the
dispatched batches are exactly the `k` consecutive id ranges of size
`MAX_CONCURRENT` starting at `START_ID`, in order. -/
def cursorInv (s : SweepState) : Prop :=
  ∃ k, s.artist_id = START_ID + MAX_CONCURRENT * k ∧
    s.dispatched =
      (List.range k).map (fun i => batchIds (START_ID + MAX_CONCURRENT * i))

/-- One loop-condition observation preserves the cursor/dispatch
invariant. -/
lemma cursorInv_step (env : Env) (s : SweepState) (h : cursorInv s) :
    cursorInv (mainStep env s) := by
  obtain ⟨k, hid, hdisp⟩ := h
  by_cases hst : s.stopped = true
  · rw [(C3_stop_iff_limit env s).1 hst]
    exact ⟨k, hid, hdisp⟩
  · have hst' : s.stopped = false := by simpa using hst
    by_cases hcf : s.consecutive_failures < CONSECUTIVE_FAIL_LIMIT
    · have hms : mainStep env s = batchStep env s := by
        simp [mainStep, hst', hcf]
      refine ⟨k + 1, ?_, ?_⟩
      · rw [hms, (batchStep_cursor env s).1, hid]
        ring
      · rw [hms, (batchStep_cursor env s).2.1, hid, hdisp,
          List.range_succ, List.map_append]
        simp
    · have hms : mainStep env s = { s with stopped := true } := by
        simp [mainStep, hst', hcf]
      rw [hms]
      exact ⟨k, hid, hdisp⟩

/-- The cursor/dispatch invariant holds after any number of steps from
the initial state. -/
lemma cursorInv_run (env : Env) (n : Nat) :
    ∀ s, cursorInv s → cursorInv (mainRun env n s) := by
  induction n with
  | zero => intro s h; exact h
  | succ m ih =>
    intro s h
    exact ih (mainStep env s) (cursorInv_step env s h)

/-- C6.  Every batch iteration advances the cursor by exactly
`MAX_CONCURRENT` (the batch size) regardless of outcomes, and along any
run from the initial state the dispatched batches are exactly the
consecutive, non-overlapping, contiguous id ranges
`[START_ID + MAX_CONCURRENT * i, ...)` of size `MAX_CONCURRENT`, in
increasing order. -/
theorem C6_cursor_advance (env : Env) :
    (∀ s : SweepState,
      (batchStep env s).artist_id = s.artist_id + MAX_CONCURRENT ∧
      (batchStep env s).dispatched =
        s.dispatched ++ [batchIds s.artist_id]) ∧
    (∀ n : Nat, ∃ k : Nat,
      (mainRun env n initState).artist_id =
        START_ID + MAX_CONCURRENT * k ∧
      (mainRun env n initState).dispatched =
        (List.range k).map
          (fun i => batchIds (START_ID + MAX_CONCURRENT * i))) := by
  constructor
  · intro s
    exact ⟨(batchStep_cursor env s).1, (batchStep_cursor env s).2.1⟩
  · intro n
    have h0 : cursorInv initState := ⟨0, by simp [initState], by rfl⟩
    exact cursorInv_run env n initState h0

/-- C5 (amended).  Each truthy fetch result appends exactly one line to
`artists.jsonl` per sweep pass, in result order; the line for id `aid`
and fetch result `r` is `{"id": aid, "data": {"id": r.id, "data":
<decoded body>}}` — the whole fetch dict is wrapped a second time under
`"data"`. -/
theorem C5_emitted_record_shape (env : Env) :
    (∀ s : SweepState,
      (batchStep env s).file =
        s.file ++
          (stateBatch env s).filterMap
            (fun p => Option.map (emitLine p.1) p.2)) ∧
    (∀ (aid : Nat) (r : FetchRecord),
      emitLine aid r =
        Json.obj [("id", Json.num (aid : Int)),
          ("data",
            Json.obj [("id", Json.num (r.id : Int)),
              ("data", r.data)])]) := by
  constructor
  · intro s
    exact batchStep_file env s
  · intro aid r
    rfl

/-- C5 counterexample: for a collected id whose 200 response decoded to
the JSON string `"x"`, the line the sink loop writes is the
double-wrapped object, not the claimed `{"id": 100, "data": "x"}`. -/
theorem C5_counterexample :
    (sinkLoop [(100, fetch_artist 100 [ev200 (Json.str "x")])] [] 0 0
        false).1 =
      [Json.obj [("id", Json.num 100),
        ("data",
          Json.obj [("id", Json.num 100), ("data", Json.str "x")])]] ∧
    (sinkLoop [(100, fetch_artist 100 [ev200 (Json.str "x")])] [] 0 0
        false).1 ≠
      [Json.obj [("id", Json.num 100), ("data", Json.str "x")]] := by
  constructor
  · rfl
  · intro h
    rw [show (sinkLoop [(100, fetch_artist 100 [ev200 (Json.str "x")])]
        [] 0 0 false).1 =
      [Json.obj [("id", Json.num 100),
        ("data",
          Json.obj [("id", Json.num 100), ("data", Json.str "x")])]]
      from rfl] at h
    simp at h

/-- The response script of C1's failing input: a 429 carrying
`Retry-After: 7`, followed by responses that would succeed if the worker
retried. -/
def c1Script : List AttemptEvent :=
  [ev429 (some "7"), ev200 Json.null, ev200 Json.null]

/-- C1 (code behaviour at the failing input).  On a 429 with a parseable
`Retry-After: 7` header, the worker does not sleep and does not retry:
the log f-string at line 28 evaluates the unbound name `attempt`,
raising `NameError` before the sleep; the blanket handler at line 36
catches it and `fetch_artist` returns `None` after a single attempt,
even though the next response would have been a 200. -/
theorem C1_rate_limit_no_retry :
    pyInt "7" = some 7 ∧
    fetchBody 100 c1Script =
      ⟨LoopOut.exc PyExc.nameError, 1, [], ExitSite.raised⟩ ∧
    fetch_artist 100 c1Script = none := by
  refine ⟨by decide, by rfl, by rfl⟩

/-- The response scripts of the spec's five-id scenario: ids 100-104 see
`[200, 404, 429 (Retry-After: 2) then 200, 200, 500]`. -/
def scenarioEnv : Env := fun aid =>
  if aid = 100 then [ev200 (Json.str "a")]
  else if aid = 101 then [ev404]
  else if aid = 102 then [ev429 (some "2"), ev200 (Json.str "c")]
  else if aid = 103 then [ev200 (Json.str "d")]
  else [ev500]

/-- The scenario's batch of ids. -/
def scenarioIds : List Nat := [100, 101, 102, 103, 104]

/-- C4 (code behaviour on the spec's scenario).  The fetch results are
`[truthy, None, None, truthy, None]`: the 429 id yields `None` (the
NameError at line 28 consumes it despite the parseable `Retry-After: 2`
and the 200 available on retry), and `None` is also what both the 404
and the 500 produce — the code returns `Optional[dict]`, not a three-way
variant.  Consequently the sink loop collects 2 records, not 3; the
failure counter does reset to 0. -/
theorem C4_scenario_outcomes :
    batchResults scenarioEnv scenarioIds =
      [(100, some ⟨100, Json.str "a"⟩), (101, none), (102, none),
       (103, some ⟨103, Json.str "d"⟩), (104, none)] ∧
    pyInt "2" = some 2 ∧
    (fetchBody 102 (scenarioEnv 102)).out = LoopOut.exc PyExc.nameError ∧
    (sinkLoop (batchResults scenarioEnv scenarioIds) [] 0 0 false).2.1 =
      2 ∧
    (sinkLoop (batchResults scenarioEnv scenarioIds) [] 0 0
        false).2.2.1 = 0 ∧
    (sinkLoop (batchResults scenarioEnv scenarioIds) [] 0 0
        false).2.2.2 = true := by
  refine ⟨by rfl, by decide, by rfl, by rfl, by rfl, by rfl⟩

/-- The response script of C7's counterexample: a 429 whose `Retry-After`
header is present but not an integer, followed by responses that would
succeed if the worker retried. -/
def c7Script : List AttemptEvent :=
  [ev429 (some "soon"), ev200 (Json.str "x"), ev200 (Json.str "x")]

/-- C7 counterexample.  On a 429 whose `Retry-After` header is `"soon"`
(present, not parseable), the worker performs no further attempt and no
backoff wait: `int("soon")` at line 27 raises `ValueError`, the blanket
handler returns `None` after the single attempt, although the next
response would have been a 200. -/
theorem C7_counterexample :
    pyInt "soon" = none ∧
    fetchBody 100 c7Script =
      ⟨LoopOut.exc PyExc.valueError, 1, [], ExitSite.raised⟩ ∧
    fetch_artist 100 c7Script = none := by
  refine ⟨by decide, by rfl, by rfl⟩

/-- C7 (amended).  When a 429 response carries a `Retry-After` header
that is present but not parseable as an integer, `int()` raises
`ValueError`; the worker's blanket handler catches it and returns `None`
(Failed) for that ID after the single attempt — no backoff wait and no
retry occur. -/
theorem C7_unparseable_retry_after (id : Nat) (s : String) (b : BodyRes)
    (rest : List AttemptEvent) (hs : pyInt s = none) :
    fetchBody id (AttemptEvent.got ⟨429, some s, b⟩ :: rest) =
      ⟨LoopOut.exc PyExc.valueError, 1, [], ExitSite.raised⟩ ∧
    fetch_artist id (AttemptEvent.got ⟨429, some s, b⟩ :: rest) =
      none := by
  have hbody :
      fetchBody id (AttemptEvent.got ⟨429, some s, b⟩ :: rest) =
        ⟨LoopOut.exc PyExc.valueError, 1, [], ExitSite.raised⟩ := by
    simp [fetchBody, MAX_RETRIES, fetch_loop, scriptAt, computeWait, hs]
  refine ⟨hbody, ?_⟩
  simp [fetch_artist, hbody]

/-- C7 witness: the amended behaviour at the concrete header `"soon"`. -/
theorem C7_witness :
    fetch_artist 100
        [AttemptEvent.got ⟨429, some "soon", BodyRes.ok Json.null⟩] =
      none :=
  (C7_unparseable_retry_after 100 "soon" (BodyRes.ok Json.null) []
    (by decide)).2

/-- C8.  A 404 response makes the worker return its absence value
(`None`, at the return site of line 32) after exactly one HTTP attempt:
one request issued, no sleep, no retry, whatever the headers, body and
any scripted later responses. -/
theorem C8_absent_no_retry (id : Nat) (h : Option String) (b : BodyRes)
    (rest : List AttemptEvent) :
    fetchBody id (AttemptEvent.got ⟨404, h, b⟩ :: rest) =
      ⟨LoopOut.ret none, 1, [], ExitSite.absent⟩ ∧
    fetch_artist id (AttemptEvent.got ⟨404, h, b⟩ :: rest) = none := by
  have hbody :
      fetchBody id (AttemptEvent.got ⟨404, h, b⟩ :: rest) =
        ⟨LoopOut.ret none, 1, [], ExitSite.absent⟩ := by
    simp [fetchBody, MAX_RETRIES, fetch_loop, scriptAt]
  refine ⟨hbody, ?_⟩
  simp [fetch_artist, hbody]

/-- C9.  For every id and every script of HTTP responses and transport
faults, the worker resolves locally: either the `try` block returns a
value and `fetch_artist` forwards it, or it raises and the blanket
handler at line 36 turns the exception into `None` — no exception ever
reaches the sweep loop. -/
theorem C9_no_exception_escapes (id : Nat)
    (script : List AttemptEvent) :
    (∃ v, (fetchBody id script).out = LoopOut.ret v ∧
      fetch_artist id script = v) ∨
    (∃ e, (fetchBody id script).out = LoopOut.exc e ∧
      fetch_artist id script = none) := by
  cases hout : (fetchBody id script).out with
  | ret v => exact Or.inl ⟨v, rfl, by simp [fetch_artist, hout]⟩
  | exc e => exact Or.inr ⟨e, rfl, by simp [fetch_artist, hout]⟩

/-- C10.  A 200 response whose body fails to decode raises inside the
`try` block and the worker returns `None` (the id is not collected);
conversely a truthy result arises only when the first response is a 200
whose body decodes, and the record's payload is that decoded body. -/
theorem C10_success_iff_decodable :
    (∀ (id : Nat) (h : Option String) (rest : List AttemptEvent),
      fetchBody id (AttemptEvent.got ⟨200, h, BodyRes.raises⟩ :: rest) =
        ⟨LoopOut.exc PyExc.jsonDecodeError, 1, [], ExitSite.raised⟩ ∧
      fetch_artist id
        (AttemptEvent.got ⟨200, h, BodyRes.raises⟩ :: rest) = none) ∧
    (∀ (id : Nat) (script : List AttemptEvent) (r : FetchRecord),
      fetch_artist id script = some r →
      ∃ (h : Option String) (rest : List AttemptEvent),
        script = AttemptEvent.got ⟨200, h, BodyRes.ok r.data⟩ :: rest ∧
        r.id = id) := by
  constructor
  · intro id h rest
    have hbody :
        fetchBody id
            (AttemptEvent.got ⟨200, h, BodyRes.raises⟩ :: rest) =
          ⟨LoopOut.exc PyExc.jsonDecodeError, 1, [], ExitSite.raised⟩ := by
      simp [fetchBody, MAX_RETRIES, fetch_loop, scriptAt]
    exact ⟨hbody, by simp [fetch_artist, hbody]⟩
  · intro id script r hr
    cases script with
    | nil =>
      simp [fetch_artist, fetchBody, MAX_RETRIES, fetch_loop,
        scriptAt] at hr
    | cons a rest =>
      cases a with
      | transportFault =>
        simp [fetch_artist, fetchBody, MAX_RETRIES, fetch_loop,
          scriptAt] at hr
      | got resp =>
        obtain ⟨st, hd, bd⟩ := resp
        by_cases h200 : st = 200
        · subst h200
          cases bd with
          | ok p =>
            have hr' : some (FetchRecord.mk id p) = some r := by
              simpa [fetch_artist, fetchBody, MAX_RETRIES, fetch_loop,
                scriptAt] using hr
            have : FetchRecord.mk id p = r := by
              exact Option.some.inj hr'
            subst this
            exact ⟨hd, rest, rfl, rfl⟩
          | raises =>
            simp [fetch_artist, fetchBody, MAX_RETRIES, fetch_loop,
              scriptAt] at hr
        · by_cases h429 : st = 429
          · subst h429
            cases hw : computeWait hd 5 with
            | ok w =>
              simp [fetch_artist, fetchBody, MAX_RETRIES, fetch_loop,
                scriptAt, h200, hw] at hr
            | error e =>
              simp [fetch_artist, fetchBody, MAX_RETRIES, fetch_loop,
                scriptAt, h200, hw] at hr
          · by_cases h404 : st = 404
            · subst h404
              simp [fetch_artist, fetchBody, MAX_RETRIES, fetch_loop,
                scriptAt, h200, h429] at hr
            · simp [fetch_artist, fetchBody, MAX_RETRIES, fetch_loop,
                scriptAt, h200, h429, h404] at hr

/-- C10 witness: the "only if" direction evaluated at a concrete
successful fetch. -/
theorem C10_witness :
    ∃ (h : Option String) (rest : List AttemptEvent),
      [ev200 (Json.str "x")] =
        AttemptEvent.got
            ⟨200, h, BodyRes.ok (FetchRecord.mk 100 (Json.str "x")).data⟩ ::
          rest ∧
      (FetchRecord.mk 100 (Json.str "x")).id = 100 :=
  C10_success_iff_decodable.2 100 [ev200 (Json.str "x")]
    (FetchRecord.mk 100 (Json.str "x")) rfl

end YaMusic
